import Mathlib

/-!
Verification of the trading decision pipeline of the Crypto repository.

Shallow embedding of the data model (src/core/models.py), the PCS exit
ladder (src/conditions/exit_condition_factory.py), the entry-signal
combiners (src/conditions/base_condition.py and src/core/trading_engine.py),
the exit-evaluation policies, the execution dispatch of
TradingEngine._run_trading_cycle, the risk gate (src/risk/risk_manager.py),
the multi-timeframe moving-average condition
(src/conditions/entry/moving_average.py) and the price-channel breakout
condition (src/conditions/entry/price_channel.py).

Python floats are modelled as rationals; the ladder/combiner/risk logic
under verification is selection and comparison logic, not float rounding.
Python exceptions are modelled with Except or, where the source catches
the exception and returns None, collapsed to none at the point noted.
-/

namespace Crypto

/-- SignalType from src/core/models.py: BUY or SELL. -/
inductive SignalType where
  | BUY
  | SELL
deriving DecidableEq, Repr

/-- PositionSide from src/core/models.py: LONG or SHORT. -/
inductive PositionSide where
  | LONG
  | SHORT
deriving DecidableEq, Repr

/-- A value of a Python metadata dict (Dict[str, Any]); only the shapes the
conditions actually store are represented. -/
inductive MetaVal where
  | s (v : String)
  | q (v : ℚ)
  | n (v : ℕ)
  | b (v : Bool)
deriving DecidableEq, Repr

/-- Metadata dict as an association list; keys written by the source are
distinct, so first-match lookup is dict lookup. -/
def lookupMeta (m : List (String × MetaVal)) (k : String) : Option MetaVal :=
  match m with
  | [] => none
  | (k', v) :: rest => if k' = k then some v else lookupMeta rest k

/-- Python dict assignment `m[k] = v` (overwrite-or-add; position of the key
is irrelevant to lookup). -/
def metaSet (m : List (String × MetaVal)) (k : String) (v : MetaVal) :
    List (String × MetaVal) :=
  m.filter (fun kv => kv.1 ≠ k) ++ [(k, v)]

/-- MarketData from src/core/models.py (fields the conditions read). -/
structure MarketData where
  symbol : String
  current_price : ℚ
  close_prices : List ℚ
  high_prices : List ℚ
  low_prices : List ℚ
  volume : ℚ := 0
deriving DecidableEq, Repr

/-- Signal from src/core/models.py. -/
structure Signal where
  type : SignalType
  symbol : String
  price : ℚ
  confidence : ℚ
  source : String
  metadata : List (String × MetaVal) := []
deriving DecidableEq, Repr

/-- Position from src/core/models.py (fields the exit logic reads). -/
structure Position where
  symbol : String
  side : PositionSide
  size : ℚ
  entry_price : ℚ
  current_price : ℚ
deriving DecidableEq, Repr

/-- Errors raised by the modelled Python code. -/
inductive ModelError where
  | valueError (msg : String)
  | attributeError (attr : String)
deriving DecidableEq, Repr

/-- Signal.__post_init__ (src/core/models.py lines 111-124): empty symbol,
non-positive price, or confidence outside [0,1] raise ValueError, in that
order.  The type coercion branch is not modelled because the model's type
field is already a SignalType. -/
def Signal.make (type : SignalType) (symbol : String) (price confidence : ℚ)
    (source : String) (metadata : List (String × MetaVal)) :
    Except ModelError Signal :=
  if symbol = "" then .error (.valueError "symbol required")
  else if price ≤ 0 then .error (.valueError "price must be positive")
  else if ¬(0 ≤ confidence ∧ confidence ≤ 1) then
    .error (.valueError "confidence must be within 0 and 1")
  else .ok { type := type, symbol := symbol, price := price,
             confidence := confidence, source := source, metadata := metadata }

/-- Position.__post_init__ (src/core/models.py lines 234-245): negative size,
non-positive entry price, or non-positive current price raise ValueError, in
that order.  Note the source does not validate the symbol of a Position. -/
def Position.make (symbol : String) (side : PositionSide)
    (size entry_price current_price : ℚ) : Except ModelError Position :=
  if size < 0 then .error (.valueError "size must be nonnegative")
  else if entry_price ≤ 0 then .error (.valueError "entry price must be positive")
  else if current_price ≤ 0 then .error (.valueError "current price must be positive")
  else .ok { symbol := symbol, side := side, size := size,
             entry_price := entry_price, current_price := current_price }

/-- Position.is_long. -/
def Position.is_long (p : Position) : Bool := p.side = PositionSide.LONG

/-- Position.calculate_pnl (src/core/models.py lines 247-255). -/
def Position.calculate_pnl (p : Position) : ℚ :=
  if p.size = 0 then 0
  else match p.side with
  | .LONG => (p.current_price - p.entry_price) * p.size
  | .SHORT => (p.entry_price - p.current_price) * p.size

/-- Position.calculate_pnl_percentage (src/core/models.py lines 257-265).
Returns none exactly where the Python raises ZeroDivisionError
(entry_price * size = 0 with entry_price nonzero). -/
def Position.calculate_pnl_percentage (p : Position) : Option ℚ :=
  if p.entry_price = 0 then some 0
  else if p.entry_price * p.size = 0 then none
  else some (p.calculate_pnl / (p.entry_price * p.size) * 100)

/-- BaseCondition._validate_market_data (src/conditions/base_condition.py
lines 89-103): market data present, close prices non-empty, positive price.
A missing (None) market-data argument is subsumed by the caller quantifying
over MarketData values. -/
def validateMarketData (md : MarketData) : Bool :=
  !md.close_prices.isEmpty && md.current_price > 0

/-- ExitCondition._validate_position (src/conditions/base_condition.py
lines 183-193): the position must exist and have size > 0. -/
def validatePosition (p : Position) : Bool := p.size > 0

/-- One entry of the PCS ladder table (config.exit.pcs_steps entry or a
PCS_DEFAULT_LEVELS row, src/config/constants.py lines 128-141). -/
structure PCSLevel where
  step : ℕ
  tp : ℚ
  sl : ℚ
  enabled : Bool := true
deriving DecidableEq, Repr

/-- The PCS_DEFAULT_LEVELS table from src/config/constants.py. -/
def PCS_DEFAULT_LEVELS : List PCSLevel :=
  [ ⟨1, 2, -1, true⟩, ⟨2, 4, -2, true⟩, ⟨3, 6, -3, true⟩,
    ⟨4, 8, -4, true⟩, ⟨5, 10, -5, true⟩, ⟨6, 12, -6, true⟩,
    ⟨7, 15, -8, true⟩, ⟨8, 20, -10, true⟩, ⟨9, 25, -12, true⟩,
    ⟨10, 30, -15, true⟩, ⟨11, 40, -20, true⟩, ⟨12, 50, -25, true⟩ ]

/-- Configuration state of a PCSSystemCondition
(src/conditions/exit_condition_factory.py lines 23-30). -/
structure PCSConfig where
  pcs_levels : List PCSLevel
  active_steps : List ℕ
  name : String := "PCS System"
deriving DecidableEq, Repr

/-- PCSSystemCondition.get_active_levels
(src/conditions/exit_condition_factory.py lines 32-34). -/
def getActiveLevels (cfg : PCSConfig) : List PCSLevel :=
  cfg.pcs_levels.filter (fun lv => lv.enabled && cfg.active_steps.contains lv.step)

/-- Selection step of a stable ascending sort's head: keep the accumulator
unless the next element's key is strictly smaller.  `xs.foldl (pickMinKey k) x`
is `sorted(x :: xs, key=k)[0]` of Python's stable sort. -/
def pickMinKey {α β : Type} [LinearOrder β] (key : α → β) (acc x : α) : α :=
  if key x < key acc then x else acc

/-- Selection step of a stable descending sort's head: keep the accumulator
unless the next element's key is strictly larger.  `xs.foldl (pickMaxKey k) x`
is `sorted(x :: xs, key=k, reverse=True)[0]` of Python's stable sort, and also
`max(x :: xs, key=k)` (both keep the earliest element among equal keys). -/
def pickMaxKey {α β : Type} [LinearOrder β] (key : α → β) (acc x : α) : α :=
  if key acc < key x then x else acc

/-- Builds the exit signal of ExitCondition._create_exit_signal specialised to
the metadata dict PCSSystemCondition.evaluate passes it
(src/conditions/exit_condition_factory.py lines 67-74 and
src/conditions/base_condition.py lines 163-181). -/
def mkPcsExit (cfg : PCSConfig) (md : MarketData) (p : Position)
    (chosen : PCSLevel) (reason : String) (confidence pnl_pct : ℚ) : Signal :=
  { type := if p.is_long then .SELL else .BUY
  , symbol := md.symbol
  , price := md.current_price
  , confidence := confidence
  , source := cfg.name
  , metadata := [("pcs_step", .n chosen.step), ("pcs_tp", .q chosen.tp),
                 ("pcs_sl", .q chosen.sl), ("reason", .s reason),
                 ("pnl_pct", .q pnl_pct)] }

/-- PCSSystemCondition.evaluate (src/conditions/exit_condition_factory.py
lines 36-74).  The try/except around calculate_pnl_percentage is the none
branch of the pnl match; `sorted(sl,key=step)[0]` and
`sorted(tp,key=step,reverse=True)[0]` are the stable-selection folds. -/
def pcsEvaluate (cfg : PCSConfig) (md : MarketData) (position : Option Position) :
    Option Signal :=
  match position with
  | none => none
  | some p =>
    if !(validatePosition p) then none
    else
      match p.calculate_pnl_percentage with
      | none => none
      | some pnl_pct =>
        let active_levels := getActiveLevels cfg
        if active_levels.isEmpty then none
        else
          let tp_candidates := active_levels.filter (fun lv => decide (lv.tp ≤ pnl_pct))
          let sl_candidates := active_levels.filter (fun lv => decide (pnl_pct ≤ lv.sl))
          match sl_candidates with
          | c :: cs =>
            some (mkPcsExit cfg md p (cs.foldl (pickMinKey PCSLevel.step) c)
              "SL" (9/10) pnl_pct)
          | [] =>
            match tp_candidates with
            | c :: cs =>
              some (mkPcsExit cfg md p (cs.foldl (pickMaxKey PCSLevel.step) c)
                "TP" (8/10) pnl_pct)
            | [] => none

/-- The enabled flag of an entry condition as the combiners read it
(BaseCondition.is_active, src/conditions/base_condition.py lines 44-46). -/
structure CondFlag where
  is_enabled : Bool
deriving DecidableEq, Repr

/-- `len([c for c in entry_conditions if c.is_active()])`. -/
def activeCount (entry_conditions : List CondFlag) : ℕ :=
  (entry_conditions.filter (fun c => c.is_enabled)).length

/-- ConditionManager._create_combined_signal
(src/conditions/base_condition.py lines 300-311). -/
def createCombinedSignal (base_signal : Signal) (confidence : ℚ) (source : String) :
    Signal :=
  { type := base_signal.type
  , symbol := base_signal.symbol
  , price := base_signal.price
  , confidence := confidence
  , source := source
  , metadata := [("combined", .b true), ("original_source", .s base_signal.source)] }

/-- ConditionManager._combine_entry_signals
(src/conditions/base_condition.py lines 281-298).  The OR branch's
`max(signals, key=confidence)` is the stable-selection fold. -/
def combineEntrySignals (combination_mode : String)
    (entry_conditions : List CondFlag) (signals : List Signal) : Option Signal :=
  match signals with
  | [] => none
  | s0 :: rest =>
    if combination_mode = "AND" then
      if (s0 :: rest).length = activeCount entry_conditions then
        let avg_confidence :=
          ((s0 :: rest).map Signal.confidence).sum / ((s0 :: rest).length : ℚ)
        some (createCombinedSignal s0 avg_confidence "AND_COMBINATION")
      else none
    else
      some (rest.foldl (pickMaxKey Signal.confidence) s0)

/-- The AND branch of TradingEngine._evaluate_entry_conditions
(src/core/trading_engine.py lines 431-443), up to and including the choice of
best_signal and the metadata tag, before the risk gate: when every active
condition produced a signal (and some condition is active), the
highest-confidence per-condition signal is selected and its metadata dict gets
the key "combination" set to "AND".  The per-signal "exchange"/"condition"
metadata entries written earlier in the same method are not modelled (no
claim reads them). -/
def engineCombineAND (entry_conditions : List CondFlag)
    (condition_signals : List Signal) : Option Signal :=
  if condition_signals.length = activeCount entry_conditions ∧
      0 < activeCount entry_conditions then
    match condition_signals with
    | [] => none
    | s0 :: rest =>
      let best_signal := rest.foldl (pickMaxKey Signal.confidence) s0
      some { best_signal with
             metadata := metaSet best_signal.metadata "combination" (.s "AND") }
  else none

/-- An exit condition as the exit evaluators consume it: the enabled flag and
the evaluate method (Signal-or-None; an exception inside evaluate is caught by
both callers and treated as no signal, so the method is modelled total). -/
structure ExitCondFn where
  is_enabled : Bool
  evalFn : MarketData → Position → Option Signal

/-- The `for condition in active: ... return signal` loop of
ConditionManager.evaluate_exit_conditions: the first signal wins. -/
def firstExitSignal : List ExitCondFn → MarketData → Position → Option Signal
  | [], _, _ => none
  | c :: cs, md, p =>
    match c.evalFn md p with
    | some s => some s
    | none => firstExitSignal cs md p

/-- ConditionManager.evaluate_exit_conditions
(src/conditions/base_condition.py lines 262-279). -/
def cmEvaluateExitConditions (exit_conditions : List ExitCondFn)
    (md : MarketData) (p : Position) : Option Signal :=
  if exit_conditions.isEmpty then none
  else
    let active := exit_conditions.filter (fun c => c.is_enabled)
    if active.isEmpty then none
    else firstExitSignal active md p

/-- TradingEngine._evaluate_exit_conditions
(src/core/trading_engine.py lines 478-508), for one exchange: for every open
position, every active exit condition is evaluated and every signal produced
is appended to the collected list (no early return).  The
"exchange"/"position_id" metadata writes are not modelled (no claim reads
them). -/
def engineEvaluateExitConditions (exit_conditions : List ExitCondFn)
    (md : MarketData) (positions : List Position) : List Signal :=
  (positions.map (fun p =>
    exit_conditions.filterMap (fun c =>
      if c.is_enabled then c.evalFn md p else none))).flatten

/-- An order-placing step of TradingEngine._execute_signals: either
_execute_exit_signal or _execute_entry_signal applied to a signal. -/
inductive ExecAction where
  | exitOrder (s : Signal)
  | entryOrder (s : Signal)
deriving DecidableEq, Repr

/-- True iff the action closes a position. -/
def ExecAction.isExit : ExecAction → Bool
  | .exitOrder _ => true
  | .entryOrder _ => false

/-- TradingEngine._execute_signals (src/core/trading_engine.py lines 510-518):
all exit signals are executed, then all entry signals. -/
def executeSignals (entry_signals exit_signals : List Signal) : List ExecAction :=
  exit_signals.map ExecAction.exitOrder ++ entry_signals.map ExecAction.entryOrder

/-- Step 4 of TradingEngine._run_trading_cycle
(src/core/trading_engine.py lines 315-323): `none` stands for a name not
bound in locals() (its condition list was empty, so the evaluation call was
skipped).  If entry_signals is bound and non-empty, only
_execute_signals(entry_signals, []) runs; otherwise if exit_signals is bound
and non-empty, only _execute_signals([], exit_signals) runs. -/
def runTradingCycleDispatch (entry_signals exit_signals : Option (List Signal)) :
    List ExecAction :=
  if ¬(entry_signals.getD []).isEmpty then
    executeSignals (entry_signals.getD []) []
  else if ¬(exit_signals.getD []).isEmpty then
    executeSignals [] (exit_signals.getD [])
  else []

/-- The mutable attributes of RiskManager (src/risk/risk_manager.py).
account_balance, daily_pnl and daily_loss_limit are Options because
RiskManager.__init__ (lines 30-67) never assigns them and no other method of
the class (nor any caller in the repository) does; `none` models the unbound
attribute whose read raises AttributeError.  active_positions is kept as its
length, the only thing the checks read. -/
structure RiskState where
  daily_trades : ℕ
  daily_max_trades : ℕ
  active_positions : ℕ
  max_positions : ℕ
  daily_loss : ℚ
  last_reset_date : ℕ
  max_position_size : ℚ
  account_balance : Option ℚ
  daily_pnl : Option ℚ
  daily_loss_limit : Option ℚ
deriving DecidableEq, Repr

/-- RiskManager.__init__ counter initialisation (src/risk/risk_manager.py
lines 61-66) with the configured limits: daily_trades = 0, daily_loss = 0,
last_reset_date = today, no open positions, and the three attributes read by
_check_daily_loss/_check_position_size left unassigned. -/
def riskManagerInit (daily_max_trades max_positions : ℕ)
    (max_position_size : ℚ) (today : ℕ) : RiskState :=
  { daily_trades := 0
  , daily_max_trades := daily_max_trades
  , active_positions := 0
  , max_positions := max_positions
  , daily_loss := 0
  , last_reset_date := today
  , max_position_size := max_position_size
  , account_balance := none
  , daily_pnl := none
  , daily_loss_limit := none }

/-- RiskManager._check_daily_trades (src/risk/risk_manager.py lines 122-131):
reset the daily counters when the calendar date advanced, then compare the
counter with the cap.  Returns the check result and the possibly-reset state. -/
def checkDailyTrades (st : RiskState) (current_date : ℕ) : Bool × RiskState :=
  let st' :=
    if st.last_reset_date < current_date then
      { st with daily_trades := 0, daily_loss := 0, last_reset_date := current_date }
    else st
  (st'.daily_trades < st'.daily_max_trades, st')

/-- RiskManager._check_max_positions (src/risk/risk_manager.py lines 133-135). -/
def checkMaxPositions (st : RiskState) : Bool :=
  st.active_positions < st.max_positions

/-- RiskManager._check_daily_loss (src/risk/risk_manager.py lines 137-145):
the first statement reads self.account_balance, which raises AttributeError
when the attribute is unbound; then daily_pnl and daily_loss_limit are read. -/
def checkDailyLoss (st : RiskState) : Except ModelError Bool :=
  match st.account_balance with
  | none => .error (.attributeError "account_balance")
  | some balance =>
    if balance > 0 then
      match st.daily_pnl with
      | none => .error (.attributeError "daily_pnl")
      | some pnl =>
        match st.daily_loss_limit with
        | none => .error (.attributeError "daily_loss_limit")
        | some lim =>
          if pnl / balance * 100 ≤ -lim then .ok false else .ok true
    else .ok true

/-- RiskManager._check_position_size (src/risk/risk_manager.py lines 147-156):
also reads self.account_balance first.  The signal's position_value attribute
does not exist on Signal, so getattr always yields the default
max_position_size. -/
def checkPositionSize (st : RiskState) : Except ModelError Bool :=
  match st.account_balance with
  | none => .error (.attributeError "account_balance")
  | some balance =>
    if balance > 0 then
      let position_value := st.max_position_size
      if position_value / balance * 100 > st.max_position_size then .ok false
      else .ok true
    else .ok true

/-- RiskManager.validate_entry_signal (src/risk/risk_manager.py lines 91-120):
the four checks run left to right, short-circuiting on the first False; an
AttributeError raised inside a check propagates out.  Returns the outcome and
the state as mutated by _check_daily_trades. -/
def validateEntrySignal (st : RiskState) (current_date : ℕ) :
    Except ModelError Bool × RiskState :=
  let (ok1, st1) := checkDailyTrades st current_date
  if !ok1 then (.ok false, st1)
  else if !(checkMaxPositions st1) then (.ok false, st1)
  else
    match checkDailyLoss st1 with
    | .error e => (.error e, st1)
    | .ok false => (.ok false, st1)
    | .ok true =>
      match checkPositionSize st1 with
      | .error e => (.error e, st1)
      | .ok false => (.ok false, st1)
      | .ok true => (.ok true, st1)

/-- `prices[-period:]` for a positive period. -/
def lastN (xs : List ℚ) (n : ℕ) : List ℚ := xs.drop (xs.length - n)

/-- Configuration of a MultiTimeframeMACondition
(src/conditions/entry/moving_average.py lines 233-241), with the
confidence_threshold of EntryCondition.__init__ (default 0.7). -/
structure MTFMAConfig where
  short_period : ℕ := 10
  long_period : ℕ := 20
  confidence_threshold : ℚ := 7/10
  is_enabled : Bool
deriving DecidableEq, Repr

/-- MultiTimeframeMACondition._calculate_ma
(src/conditions/entry/moving_average.py lines 270-274).  A zero period would
raise ZeroDivisionError, which evaluate's handler turns into no signal; that
path is the second none branch. -/
def calculateMA (prices : List ℚ) (period : ℕ) : Option ℚ :=
  if prices.length < period then none
  else if period = 0 then none
  else some ((lastN prices period).sum / (period : ℚ))

/-- MultiTimeframeMACondition._calculate_crossover_confidence
(src/conditions/entry/moving_average.py lines 312-325).  A zero long_ma would
raise ZeroDivisionError, caught locally and turned into 0.0. -/
def crossoverConfidence (short_ma long_ma : ℚ) : ℚ :=
  if long_ma = 0 then 0
  else
    let ma_diff := |short_ma - long_ma|
    let percentage_diff := ma_diff / long_ma * 100
    max 0 (min 1 (min (percentage_diff / 1) (9/10)))

/-- MultiTimeframeMACondition._check_crossover
(src/conditions/entry/moving_average.py lines 276-310). -/
def checkCrossover (cfg : MTFMAConfig) (md : MarketData)
    (short_ma long_ma : ℚ) : Option Signal :=
  if long_ma < short_ma then
    let confidence := crossoverConfidence short_ma long_ma
    if cfg.confidence_threshold ≤ confidence then
      some { type := .BUY, symbol := md.symbol, price := md.current_price
           , confidence := confidence, source := "다중시간대 이동평균 조건"
           , metadata := [("short_ma", .q short_ma), ("long_ma", .q long_ma),
                          ("crossover_type", .s "golden_cross")] }
    else none
  else if short_ma < long_ma then
    let confidence := crossoverConfidence short_ma long_ma
    if cfg.confidence_threshold ≤ confidence then
      some { type := .SELL, symbol := md.symbol, price := md.current_price
           , confidence := confidence, source := "다중시간대 이동평균 조건"
           , metadata := [("short_ma", .q short_ma), ("long_ma", .q long_ma),
                          ("crossover_type", .s "dead_cross")] }
    else none
  else none

/-- MultiTimeframeMACondition.evaluate
(src/conditions/entry/moving_average.py lines 243-268): inactive condition,
invalid market data, or fewer close prices than long_period all yield no
signal; the surrounding try/except also returns None instead of letting any
exception escape, so the model is a total function. -/
def mtfmaEvaluate (cfg : MTFMAConfig) (md : MarketData) : Option Signal :=
  if !cfg.is_enabled then none
  else if !validateMarketData md then none
  else if md.close_prices.length < cfg.long_period then none
  else
    match calculateMA md.close_prices cfg.short_period,
          calculateMA md.close_prices cfg.long_period with
    | some short_ma, some long_ma => checkCrossover cfg md short_ma long_ma
    | _, _ => none

/-- Configuration of a PriceChannelCondition
(src/conditions/entry/price_channel.py lines 18-33), with the
confidence_threshold of EntryCondition.__init__ (default 0.7). -/
structure PCConfig where
  period : ℕ := 20
  upper_breakout : String := "none"
  lower_breakout : String := "none"
  breakout_threshold : ℚ := 1/1000
  confidence_threshold : ℚ := 7/10
  is_enabled : Bool
deriving DecidableEq, Repr

/-- `self.min_data_points = max(self.period, 10)`. -/
def pcMinDataPoints (cfg : PCConfig) : ℕ := max cfg.period 10

/-- PriceChannelCondition._calculate_price_channel
(src/conditions/entry/price_channel.py lines 71-97), reduced to the (upper,
lower) pair the breakout logic reads.  `max([])` / `min([])` raise ValueError
and a zero middle line raises ZeroDivisionError in width_percentage; both are
caught locally and become None. -/
def calculatePriceChannel (cfg : PCConfig) (md : MarketData) :
    Option (ℚ × ℚ) :=
  let high_prices := lastN md.high_prices cfg.period
  let low_prices := lastN md.low_prices cfg.period
  if high_prices.length < cfg.period ∨ low_prices.length < cfg.period then none
  else
    match high_prices.max?, low_prices.min? with
    | some upper_line, some lower_line =>
      if upper_line + lower_line = 0 then none
      else some (upper_line, lower_line)
    | _, _ => none

/-- PriceChannelCondition._calculate_breakout_confidence
(src/conditions/entry/price_channel.py lines 151-171).  A zero line price
raises ZeroDivisionError, caught locally and turned into 0.0. -/
def breakoutConfidence (current_price line_price : ℚ) (upper : Bool) : ℚ :=
  if line_price = 0 then 0
  else
    let breakout_percentage :=
      (if upper then current_price - line_price else line_price - current_price)
        / line_price * 100
    min 1 (max (3/10) (min (breakout_percentage / 2) (8/10)))

/-- PriceChannelCondition._evaluate_breakout
(src/conditions/entry/price_channel.py lines 99-149): the upper check runs
first and returns its signal if the price exceeds upper*(1+threshold) and the
confidence clears the threshold; otherwise the lower check runs.  The
"channel" and "breakout_percentage" metadata entries are elided (no claim
reads them; their division by the line price can only raise when the line is
0, which needs confidence_threshold ≤ 0 to be reachable). -/
def evaluateBreakout (cfg : PCConfig) (md : MarketData)
    (upper_line lower_line : ℚ) : Option Signal :=
  let upperSig : Option Signal :=
    if cfg.upper_breakout ≠ "none" ∧
        md.current_price > upper_line * (1 + cfg.breakout_threshold) then
      let confidence := breakoutConfidence md.current_price upper_line true
      if cfg.confidence_threshold ≤ confidence then
        some { type := if cfg.upper_breakout = "buy" then .BUY else .SELL
             , symbol := md.symbol, price := md.current_price
             , confidence := confidence, source := "Price Channel 조건"
             , metadata := [("breakout_type", .s "upper"),
                            ("breakout_direction", .s cfg.upper_breakout)] }
      else none
    else none
  match upperSig with
  | some s => some s
  | none =>
    if cfg.lower_breakout ≠ "none" ∧
        md.current_price < lower_line * (1 - cfg.breakout_threshold) then
      let confidence := breakoutConfidence md.current_price lower_line false
      if cfg.confidence_threshold ≤ confidence then
        some { type := if cfg.lower_breakout = "buy" then .BUY else .SELL
             , symbol := md.symbol, price := md.current_price
             , confidence := confidence, source := "Price Channel 조건"
             , metadata := [("breakout_type", .s "lower"),
                            ("breakout_direction", .s cfg.lower_breakout)] }
      else none
    else none

/-- PriceChannelCondition.evaluate
(src/conditions/entry/price_channel.py lines 35-69). -/
def pcEvaluate (cfg : PCConfig) (md : MarketData) : Option Signal :=
  if !cfg.is_enabled then none
  else if !validateMarketData md then none
  else if md.high_prices.length < pcMinDataPoints cfg ∨
      md.low_prices.length < pcMinDataPoints cfg then none
  else
    match calculatePriceChannel cfg md with
    | none => none
    | some (upper_line, lower_line) => evaluateBreakout cfg md upper_line lower_line

/-! Concrete demonstration inputs used by witnesses and counterexamples. -/

/-- The first three PCS_DEFAULT_LEVELS rows with steps 1-3 active (the
worked example of the spec's testable properties). -/
def demoPcsCfg : PCSConfig :=
  { pcs_levels := [⟨1, 2, -1, true⟩, ⟨2, 4, -2, true⟩, ⟨3, 6, -3, true⟩]
  , active_steps := [1, 2, 3] }

/-- A market snapshot at price 97. -/
def demoMd : MarketData :=
  { symbol := "BTCUSDT", current_price := 97, close_prices := [97]
  , high_prices := [97], low_prices := [97] }

/-- A long position entered at 100, marked at 97: pnl percentage -3. -/
def demoPos : Position :=
  { symbol := "BTCUSDT", side := .LONG, size := 1
  , entry_price := 100, current_price := 97 }

/-- An entry signal at confidence 1/2. -/
def demoSigA : Signal :=
  { type := .BUY, symbol := "BTCUSDT", price := 100, confidence := 1/2, source := "A" }

/-- An entry signal at confidence 9/10. -/
def demoSigB : Signal :=
  { type := .BUY, symbol := "BTCUSDT", price := 100, confidence := 9/10, source := "B" }

/-- The synthesized ConditionManager AND signal for demoSigA/demoSigB. -/
def demoCombined : Signal :=
  createCombinedSignal demoSigA (7/10) "AND_COMBINATION"

/-- The TradingEngine AND result for demoSigA/demoSigB: the max-confidence
input with the combination tag. -/
def demoAndResult : Signal :=
  { demoSigB with metadata := [("combination", MetaVal.s "AND")] }

/-- An always-firing exit condition producing demoSigA. -/
def demoExitA : ExitCondFn := ⟨true, fun _ _ => some demoSigA⟩

/-- An always-firing exit condition producing demoSigB. -/
def demoExitB : ExitCondFn := ⟨true, fun _ _ => some demoSigB⟩

/-- An entry signal present in the same tick as demoExitSig. -/
def demoEntrySig : Signal :=
  { type := .BUY, symbol := "BTCUSDT", price := 100, confidence := 8/10, source := "entry" }

/-- An exit signal present in the same tick as demoEntrySig. -/
def demoExitSig : Signal :=
  { type := .SELL, symbol := "BTCUSDT", price := 100, confidence := 9/10, source := "exit" }

/-- A RiskManager built from the default config (daily cap 50, max 3
positions, 10 percent size cap) on day 0, after 50 recorded trades. -/
def demoRisk : RiskState :=
  { riskManagerInit 50 3 10 0 with daily_trades := 50 }

/-- A price-channel condition with upper breakout buying, default 0.1
percent breakout threshold and default 0.7 confidence threshold. -/
def demoPcCfg : PCConfig :=
  { period := 20, upper_breakout := "buy", lower_breakout := "none"
  , breakout_threshold := 1/1000, confidence_threshold := 7/10, is_enabled := true }

/-- Twenty candles with highs 100 and lows 90; the current price sits exactly
on the upper channel line. -/
def demoPcMd : MarketData :=
  { symbol := "BTCUSDT", current_price := 100
  , close_prices := List.replicate 20 95
  , high_prices := List.replicate 20 100
  , low_prices := List.replicate 20 90 }

/-- The selection property of the PCS ladder for a given pnl percentage:
stop-loss candidates pre-empt take-profit candidates, the smallest-index
stop-loss candidate wins at confidence 0.9 with reason SL, otherwise the
largest-index take-profit candidate wins at confidence 0.8 with reason TP,
otherwise no signal. -/
def PcsLadderSpec (cfg : PCSConfig) (md : MarketData) (p : Position) (pnl : ℚ) :
    Prop :=
  ((getActiveLevels cfg).filter (fun lv => decide (pnl ≤ lv.sl)) ≠ [] →
    ∃ chosen,
      chosen ∈ (getActiveLevels cfg).filter (fun lv => decide (pnl ≤ lv.sl)) ∧
      (∀ lv ∈ (getActiveLevels cfg).filter (fun lv => decide (pnl ≤ lv.sl)),
        chosen.step ≤ lv.step) ∧
      pcsEvaluate cfg md (some p) =
        some (mkPcsExit cfg md p chosen "SL" (9/10) pnl)) ∧
  ((getActiveLevels cfg).filter (fun lv => decide (pnl ≤ lv.sl)) = [] →
    (getActiveLevels cfg).filter (fun lv => decide (lv.tp ≤ pnl)) ≠ [] →
    ∃ chosen,
      chosen ∈ (getActiveLevels cfg).filter (fun lv => decide (lv.tp ≤ pnl)) ∧
      (∀ lv ∈ (getActiveLevels cfg).filter (fun lv => decide (lv.tp ≤ pnl)),
        lv.step ≤ chosen.step) ∧
      pcsEvaluate cfg md (some p) =
        some (mkPcsExit cfg md p chosen "TP" (8/10) pnl)) ∧
  ((getActiveLevels cfg).filter (fun lv => decide (pnl ≤ lv.sl)) = [] →
    (getActiveLevels cfg).filter (fun lv => decide (lv.tp ≤ pnl)) = [] →
    pcsEvaluate cfg md (some p) = none)

/-! Helper lemmas about the stable-selection folds. -/

theorem foldl_pickMinKey_mem {α β : Type} [LinearOrder β] (key : α → β) :
    ∀ (xs : List α) (a : α), xs.foldl (pickMinKey key) a ∈ a :: xs := by
  intro xs
  induction xs with
  | nil => intro a; simp
  | cons y ys ih =>
    intro a
    rcases List.mem_cons.mp (ih (pickMinKey key a y)) with h1 | h1
    · rw [List.foldl_cons, h1]
      unfold pickMinKey
      by_cases hc : key y < key a
      · simp [hc]
      · simp [hc]
    · rw [List.foldl_cons]
      exact List.mem_cons_of_mem _ (List.mem_cons_of_mem _ h1)

theorem foldl_pickMinKey_le {α β : Type} [LinearOrder β] (key : α → β) :
    ∀ (xs : List α) (a b : α), b ∈ a :: xs →
      key (xs.foldl (pickMinKey key) a) ≤ key b := by
  intro xs
  induction xs with
  | nil =>
    intro a b hb
    simp only [List.not_mem_nil, or_false, List.mem_cons] at hb
    subst hb; simp
  | cons y ys ih =>
    intro a b hb
    rw [List.foldl_cons]
    have hinit : key (ys.foldl (pickMinKey key) (pickMinKey key a y)) ≤
        key (pickMinKey key a y) :=
      ih (pickMinKey key a y) _ (List.mem_cons_self _ _)
    rcases List.mem_cons.mp hb with h | h
    · subst h
      refine le_trans hinit ?_
      unfold pickMinKey
      by_cases hc : key y < key b
      · simp [hc]; exact le_of_lt hc
      · simp [hc]
    · rcases List.mem_cons.mp h with h2 | h2
      · subst h2
        refine le_trans hinit ?_
        unfold pickMinKey
        by_cases hc : key b < key a
        · simp [hc]
        · simp [hc]; exact le_of_not_lt hc
      · exact ih (pickMinKey key a y) b (List.mem_cons_of_mem _ h2)

theorem foldl_pickMaxKey_mem {α β : Type} [LinearOrder β] (key : α → β) :
    ∀ (xs : List α) (a : α), xs.foldl (pickMaxKey key) a ∈ a :: xs := by
  intro xs
  induction xs with
  | nil => intro a; simp
  | cons y ys ih =>
    intro a
    rcases List.mem_cons.mp (ih (pickMaxKey key a y)) with h1 | h1
    · rw [List.foldl_cons, h1]
      unfold pickMaxKey
      by_cases hc : key a < key y
      · simp [hc]
      · simp [hc]
    · rw [List.foldl_cons]
      exact List.mem_cons_of_mem _ (List.mem_cons_of_mem _ h1)

theorem foldl_pickMaxKey_ge {α β : Type} [LinearOrder β] (key : α → β) :
    ∀ (xs : List α) (a b : α), b ∈ a :: xs →
      key b ≤ key (xs.foldl (pickMaxKey key) a) := by
  intro xs
  induction xs with
  | nil =>
    intro a b hb
    simp only [List.not_mem_nil, or_false, List.mem_cons] at hb
    subst hb; simp
  | cons y ys ih =>
    intro a b hb
    rw [List.foldl_cons]
    have hinit : key (pickMaxKey key a y) ≤
        key (ys.foldl (pickMaxKey key) (pickMaxKey key a y)) :=
      ih (pickMaxKey key a y) _ (List.mem_cons_self _ _)
    rcases List.mem_cons.mp hb with h | h
    · subst h
      refine le_trans ?_ hinit
      unfold pickMaxKey
      by_cases hc : key b < key y
      · simp [hc]; exact le_of_lt hc
      · simp [hc]
    · rcases List.mem_cons.mp h with h2 | h2
      · subst h2
        refine le_trans ?_ hinit
        unfold pickMaxKey
        by_cases hc : key a < key b
        · simp [hc]
        · simp [hc]; exact le_of_not_lt hc
      · exact ih (pickMaxKey key a y) b (List.mem_cons_of_mem _ h2)

/-- Unfolding of pcsEvaluate once its guards are discharged. -/
theorem pcsEvaluate_guards (cfg : PCSConfig) (md : MarketData) (p : Position)
    (pnl : ℚ) (hsize : 0 < p.size)
    (hpnl : p.calculate_pnl_percentage = some pnl)
    (hactive : getActiveLevels cfg ≠ []) :
    pcsEvaluate cfg md (some p) =
      match (getActiveLevels cfg).filter (fun lv => decide (pnl ≤ lv.sl)) with
      | c :: cs =>
        some (mkPcsExit cfg md p (cs.foldl (pickMinKey PCSLevel.step) c)
          "SL" (9/10) pnl)
      | [] =>
        match (getActiveLevels cfg).filter (fun lv => decide (lv.tp ≤ pnl)) with
        | c :: cs =>
          some (mkPcsExit cfg md p (cs.foldl (pickMaxKey PCSLevel.step) c)
            "TP" (8/10) pnl)
        | [] => none := by
  have hval : validatePosition p = true := by
    simp [validatePosition]; exact hsize
  have hne : (getActiveLevels cfg).isEmpty = false := by
    simpa [List.isEmpty_iff] using hactive
  simp only [pcsEvaluate, hval, Bool.not_true, Bool.false_eq_true, if_false, hpnl,
    hne, Bool.false_eq_true, if_false]

/-- Claim C1: for every open position with size greater than 0 and every
non-empty set of active PCS steps, an SL-candidate (pnl_pct at or below the
step's sl) with the smallest step index wins at confidence 0.9 with reason
SL even when TP-candidates exist; otherwise the TP-candidate (pnl_pct at or
above the step's tp) with the largest step index wins at confidence 0.8 with
reason TP; otherwise no signal is produced. -/
theorem pcs_ladder_selection (cfg : PCSConfig) (md : MarketData) (p : Position)
    (pnl : ℚ) (hsize : 0 < p.size)
    (hpnl : p.calculate_pnl_percentage = some pnl)
    (hactive : getActiveLevels cfg ≠ []) :
    PcsLadderSpec cfg md p pnl := by
  have hunfold := pcsEvaluate_guards cfg md p pnl hsize hpnl hactive
  refine ⟨?_, ?_, ?_⟩
  · intro hsl
    obtain ⟨c, cs, hcc⟩ := List.exists_cons_of_ne_nil hsl
    refine ⟨cs.foldl (pickMinKey PCSLevel.step) c, ?_, ?_, ?_⟩
    · rw [hcc]; exact foldl_pickMinKey_mem _ cs c
    · rw [hcc]; intro lv hlv; exact foldl_pickMinKey_le _ cs c lv hlv
    · rw [hunfold, hcc]
  · intro hsl htp
    obtain ⟨c, cs, hcc⟩ := List.exists_cons_of_ne_nil htp
    refine ⟨cs.foldl (pickMaxKey PCSLevel.step) c, ?_, ?_, ?_⟩
    · rw [hcc]; exact foldl_pickMaxKey_mem _ cs c
    · rw [hcc]; intro lv hlv; exact foldl_pickMaxKey_ge _ cs c lv hlv
    · rw [hunfold, hsl, hcc]
  · intro hsl htp
    rw [hunfold, hsl, htp]

/-- Witness for C1 at the spec's worked example: pnl_pct = -3 against active
steps 1-3 of the default ladder. -/
theorem pcs_ladder_selection_witness :
    0 < demoPos.size ∧
    demoPos.calculate_pnl_percentage = some (-3) ∧
    getActiveLevels demoPcsCfg ≠ [] ∧
    PcsLadderSpec demoPcsCfg demoMd demoPos (-3) :=
  ⟨by norm_num [demoPos],
    by norm_num [demoPos, Position.calculate_pnl_percentage, Position.calculate_pnl],
    by decide,
    pcs_ladder_selection demoPcsCfg demoMd demoPos (-3)
      (by norm_num [demoPos])
      (by norm_num [demoPos, Position.calculate_pnl_percentage, Position.calculate_pnl])
      (by decide)⟩

/-- Claim C2 (code bug): in a tick where both entry and exit signals exist,
_run_trading_cycle's if/elif dispatch executes only the entry orders — the
exit orders are never issued — even though _execute_signals itself places
exit orders before entry orders.  Evaluated at a tick holding one entry and
one exit signal. -/
theorem trading_cycle_drops_exit_orders :
    runTradingCycleDispatch (some [demoEntrySig]) (some [demoExitSig]) =
      [ExecAction.entryOrder demoEntrySig] ∧
    (runTradingCycleDispatch (some [demoEntrySig]) (some [demoExitSig])).all
      (fun a => !a.isExit) = true ∧
    executeSignals [demoEntrySig] [demoExitSig] =
      [ExecAction.exitOrder demoExitSig, ExecAction.entryOrder demoEntrySig] :=
  ⟨rfl, rfl, rfl⟩

/-- Claim C3: the ConditionManager AND-combination and the TradingEngine
inline AND-combination each fire exactly when the number of per-condition
signals equals the number of active entry conditions and that number is
positive; and the per-cycle combination result depends only on the current
cycle's signals (no partial-AND memory across cycles). -/
theorem and_combination_fires_iff :
    (∀ (entry_conditions : List CondFlag) (signals : List Signal),
      (combineEntrySignals "AND" entry_conditions signals).isSome = true ↔
        (signals.length = activeCount entry_conditions ∧
          0 < activeCount entry_conditions)) ∧
    (∀ (entry_conditions : List CondFlag) (condition_signals : List Signal),
      (engineCombineAND entry_conditions condition_signals).isSome = true ↔
        (condition_signals.length = activeCount entry_conditions ∧
          0 < activeCount entry_conditions)) ∧
    (∀ (mode : String) (entry_conditions : List CondFlag)
       (history : List (List Signal)) (current : List Signal),
      ((history ++ [current]).map (combineEntrySignals mode entry_conditions)).getLast?
        = some (combineEntrySignals mode entry_conditions current)) := by
  refine ⟨?_, ?_, ?_⟩
  · intro conds signals
    cases signals with
    | nil =>
      simp only [combineEntrySignals, Option.isSome_none, List.length_nil,
        Bool.false_eq_true, false_iff]
      rintro ⟨h1, h2⟩
      omega
    | cons s0 rest =>
      simp only [combineEntrySignals]
      rw [if_pos trivial]
      by_cases h : (s0 :: rest).length = activeCount conds
      · rw [if_pos h]
        simp only [Option.isSome_some, true_iff]
        exact ⟨h, by rw [← h]; simp⟩
      · rw [if_neg h]
        simp only [Option.isSome_none, Bool.false_eq_true, false_iff]
        rintro ⟨h1, _⟩
        exact h h1
  · intro conds signals
    unfold engineCombineAND
    by_cases h : signals.length = activeCount conds ∧ 0 < activeCount conds
    · rw [if_pos h]
      obtain ⟨h1, h2⟩ := h
      cases signals with
      | nil =>
        exfalso
        simp only [List.length_nil] at h1
        omega
      | cons s0 rest =>
        simpa using ⟨h1, h2⟩
    · rw [if_neg h]
      simp only [Option.isSome_none, Bool.false_eq_true, false_iff]
      exact h
  · intro mode conds history current
    simp [List.map_append]

/-- Counterexample to claim C4: the TradingEngine AND path, fired on two
agreeing signals of confidences 1/2 and 9/10, returns the 9/10 input signal
(tagged combination=AND) — its confidence is not the arithmetic mean 7/10 and
it carries no combined=true marker. -/
theorem engine_and_uses_max_input_cex :
    engineCombineAND [⟨true⟩, ⟨true⟩] [demoSigA, demoSigB] = some demoAndResult ∧
    demoAndResult.confidence = demoSigB.confidence ∧
    demoAndResult.confidence ≠ (demoSigA.confidence + demoSigB.confidence) / 2 ∧
    lookupMeta demoAndResult.metadata "combined" = none := by
  refine ⟨?_, rfl, ?_, rfl⟩
  · norm_num [engineCombineAND, activeCount, metaSet, pickMaxKey,
      demoSigA, demoSigB, demoAndResult]
  · norm_num [demoAndResult, demoSigA, demoSigB]

/-- Claim C4 (amended): when ConditionManager's AND-combination fires, the
result is a synthesized signal whose confidence is the arithmetic mean of the
agreeing confidences, with source AND_COMBINATION, combined=true, and the
originating source recorded; when TradingEngine's inline AND path fires, the
result is instead the highest-confidence input signal itself, confidence
unchanged, with only a combination=AND metadata tag. -/
theorem and_combination_result_shape :
    (∀ (entry_conditions : List CondFlag) (s0 : Signal) (rest : List Signal)
       (s : Signal),
      combineEntrySignals "AND" entry_conditions (s0 :: rest) = some s →
        s.confidence =
          ((s0 :: rest).map Signal.confidence).sum / (((s0 :: rest).length : ℕ) : ℚ) ∧
        s.source = "AND_COMBINATION" ∧
        lookupMeta s.metadata "combined" = some (.b true) ∧
        lookupMeta s.metadata "original_source" = some (.s s0.source)) ∧
    (∀ (entry_conditions : List CondFlag) (signals : List Signal) (s : Signal),
      engineCombineAND entry_conditions signals = some s →
        ∃ s' ∈ signals,
          s.confidence = s'.confidence ∧
          s = { s' with metadata := metaSet s'.metadata "combination" (.s "AND") } ∧
          ∀ t ∈ signals, t.confidence ≤ s.confidence) := by
  constructor
  · intro conds s0 rest s h
    simp only [combineEntrySignals] at h
    rw [if_pos trivial] at h
    by_cases hc : (s0 :: rest).length = activeCount conds
    · rw [if_pos hc] at h
      injection h with h
      subst h
      exact ⟨rfl, rfl, rfl, rfl⟩
    · rw [if_neg hc] at h
      cases h
  · intro conds signals s h
    unfold engineCombineAND at h
    by_cases hc : signals.length = activeCount conds ∧ 0 < activeCount conds
    · rw [if_pos hc] at h
      cases signals with
      | nil => cases h
      | cons s0 rest =>
        simp only at h
        injection h with h
        refine ⟨rest.foldl (pickMaxKey Signal.confidence) s0,
          foldl_pickMaxKey_mem Signal.confidence rest s0, ?_, ?_, ?_⟩
        · rw [← h]
        · rw [← h]
        · intro t ht
          rw [← h]
          exact foldl_pickMaxKey_ge Signal.confidence rest s0 t ht
    · rw [if_neg hc] at h
      cases h

/-- Witness for C4's amended claim at the two demo signals: the
ConditionManager AND result is the synthesized 7/10-confidence signal. -/
theorem and_combination_result_shape_witness :
    combineEntrySignals "AND" [⟨true⟩, ⟨true⟩] [demoSigA, demoSigB] =
      some demoCombined ∧
    (demoCombined.confidence =
        (([demoSigA, demoSigB]).map Signal.confidence).sum /
          ((([demoSigA, demoSigB] : List Signal).length : ℕ) : ℚ) ∧
      demoCombined.source = "AND_COMBINATION" ∧
      lookupMeta demoCombined.metadata "combined" = some (.b true) ∧
      lookupMeta demoCombined.metadata "original_source" = some (.s demoSigA.source)) := by
  have h : combineEntrySignals "AND" [⟨true⟩, ⟨true⟩] [demoSigA, demoSigB] =
      some demoCombined := by
    norm_num [combineEntrySignals, activeCount, createCombinedSignal,
      demoCombined, demoSigA, demoSigB]
  exact ⟨h, and_combination_result_shape.1 [⟨true⟩, ⟨true⟩] demoSigA [demoSigB]
    demoCombined h⟩

/-- Helper: the counter reset inside _check_daily_trades does not assign the
account_balance attribute. -/
theorem checkDailyTrades_account_balance (st : RiskState) (d : ℕ) :
    (checkDailyTrades st d).2.account_balance = st.account_balance := by
  unfold checkDailyTrades
  split <;> rfl

/-- Claim C5 (code bug): with the daily counter at the cap the gate rejects
any entry signal (ok false); after the calendar date advances the daily
counters are indeed reset, but instead of then accepting an otherwise-valid
signal the gate raises AttributeError inside _check_daily_loss.  Evaluated at
the default limits (cap 50, trades 50, no open positions), on the reset day
and the day after. -/
theorem risk_gate_reset_then_raises :
    (validateEntrySignal demoRisk 0).1 = .ok false ∧
    (validateEntrySignal demoRisk 1).1 =
      .error (.attributeError "account_balance") ∧
    (validateEntrySignal demoRisk 1).2.daily_trades = 0 ∧
    (validateEntrySignal demoRisk 1).2.last_reset_date = 1 :=
  ⟨rfl, rfl, rfl, rfl⟩

/-- Claim C6: whenever the daily-trade-count check and the max-open-positions
check both pass, validate_entry_signal raises AttributeError instead of
returning a boolean, because _check_daily_loss reads the account_balance
attribute that RiskManager.__init__ never assigns; the accepting branch is
unreachable without an exception. -/
theorem risk_accept_path_raises (st : RiskState) (current_date : ℕ)
    (hbal : st.account_balance = none)
    (h1 : (checkDailyTrades st current_date).1 = true)
    (h2 : checkMaxPositions (checkDailyTrades st current_date).2 = true) :
    (validateEntrySignal st current_date).1 =
      .error (.attributeError "account_balance") := by
  rcases hck : checkDailyTrades st current_date with ⟨ok1, st1⟩
  rw [hck] at h1 h2
  have hb2 : st1.account_balance = none := by
    have hmono := checkDailyTrades_account_balance st current_date
    rw [hck] at hmono
    rw [hmono, hbal]
  simp only [validateEntrySignal, hck]
  subst h1
  simp only [Bool.not_true, Bool.false_eq_true, if_false, h2, checkDailyLoss, hb2]

/-- Witness for C6 at a freshly initialised RiskManager with the default
limits: both leading checks pass and the gate raises. -/
theorem risk_accept_path_raises_witness :
    (riskManagerInit 50 3 10 0).account_balance = none ∧
    (checkDailyTrades (riskManagerInit 50 3 10 0) 0).1 = true ∧
    checkMaxPositions (checkDailyTrades (riskManagerInit 50 3 10 0) 0).2 = true ∧
    (validateEntrySignal (riskManagerInit 50 3 10 0) 0).1 =
      .error (.attributeError "account_balance") :=
  ⟨rfl, rfl, rfl, risk_accept_path_raises _ 0 rfl rfl rfl⟩

/-- Helper: a prefix of exit conditions producing no signal does not affect
the first-signal scan. -/
theorem firstExitSignal_append (pre rest : List ExitCondFn) (md : MarketData)
    (p : Position) (hpre : ∀ c ∈ pre, c.evalFn md p = none) :
    firstExitSignal (pre ++ rest) md p = firstExitSignal rest md p := by
  induction pre with
  | nil => rfl
  | cons c cs ih =>
    have hc : c.evalFn md p = none := hpre c (List.mem_cons_self _ _)
    simp only [List.cons_append, firstExitSignal, hc]
    exact ih (fun c' h => hpre c' (List.mem_cons_of_mem _ h))

/-- Counterexample to claim C7: with two active exit conditions that both
return a signal for the same position, TradingEngine._evaluate_exit_conditions
collects both signals (the later condition's signal is collected and acted
upon), while ConditionManager.evaluate_exit_conditions returns only the
first. -/
theorem engine_exit_collects_all_cex :
    engineEvaluateExitConditions [demoExitA, demoExitB] demoMd [demoPos] =
      [demoSigA, demoSigB] ∧
    cmEvaluateExitConditions [demoExitA, demoExitB] demoMd demoPos =
      some demoSigA :=
  ⟨rfl, rfl⟩

/-- Claim C7 (amended): ConditionManager.evaluate_exit_conditions iterates the
active exit conditions in configuration order and the first condition that
returns a signal determines the result; TradingEngine._evaluate_exit_conditions
instead collects the signal of every active exit condition for each open
position. -/
theorem exit_first_signal_policy :
    (∀ (exit_conditions pre post : List ExitCondFn) (c : ExitCondFn)
       (md : MarketData) (p : Position) (s : Signal),
      exit_conditions.filter (fun c => c.is_enabled) = pre ++ c :: post →
      (∀ c' ∈ pre, c'.evalFn md p = none) →
      c.evalFn md p = some s →
      cmEvaluateExitConditions exit_conditions md p = some s) ∧
    (∀ (exit_conditions : List ExitCondFn) (md : MarketData) (p : Position)
       (c : ExitCondFn) (s : Signal),
      c ∈ exit_conditions → c.is_enabled = true → c.evalFn md p = some s →
      s ∈ engineEvaluateExitConditions exit_conditions md [p]) := by
  constructor
  · intro conds pre post c md p s hfilter hpre hc
    have hne : conds.isEmpty = false := by
      cases conds with
      | nil => simp at hfilter
      | cons a as => rfl
    simp only [cmEvaluateExitConditions, hne, Bool.false_eq_true, if_false,
      hfilter]
    rw [if_neg (by simp)]
    rw [firstExitSignal_append pre (c :: post) md p hpre]
    simp only [firstExitSignal, hc]
  · intro conds md p c s hcmem hen hval
    have hrw : engineEvaluateExitConditions conds md [p] =
        conds.filterMap (fun cc => if cc.is_enabled then cc.evalFn md p else none) := by
      simp [engineEvaluateExitConditions]
    rw [hrw]
    exact List.mem_filterMap.mpr ⟨c, hcmem, by rw [if_pos hen, hval]⟩

/-- Witness for C7's amended claim at the two demo exit conditions. -/
theorem exit_first_signal_policy_witness :
    ([demoExitA, demoExitB].filter (fun c => c.is_enabled) =
      [] ++ demoExitA :: [demoExitB]) ∧
    demoExitA.evalFn demoMd demoPos = some demoSigA ∧
    cmEvaluateExitConditions [demoExitA, demoExitB] demoMd demoPos =
      some demoSigA ∧
    demoExitB ∈ [demoExitA, demoExitB] ∧
    demoExitB.evalFn demoMd demoPos = some demoSigB ∧
    demoSigB ∈ engineEvaluateExitConditions [demoExitA, demoExitB] demoMd [demoPos] := by
  refine ⟨rfl, rfl, ?_, by simp, rfl, ?_⟩
  · exact exit_first_signal_policy.1 [demoExitA, demoExitB] [] [demoExitB]
      demoExitA demoMd demoPos demoSigA rfl (by simp) rfl
  · exact exit_first_signal_policy.2 [demoExitA, demoExitB] demoMd demoPos
      demoExitB demoSigB (by simp) rfl rfl

/-- Claim C8: whenever the close-price history is shorter than long_period,
the multi-timeframe moving-average evaluator returns no signal (the model is
a total function: the source's try/except guarantees no exception escapes). -/
theorem ma_insufficient_data_none (cfg : MTFMAConfig) (md : MarketData)
    (h : md.close_prices.length < cfg.long_period) :
    mtfmaEvaluate cfg md = none := by
  unfold mtfmaEvaluate
  by_cases h1 : cfg.is_enabled
  · by_cases h2 : validateMarketData md
    · simp [h1, h2, h]
    · simp [h1, h2]
  · simp [h1]

/-- Witness for C8: one close price against long_period 20. -/
theorem ma_insufficient_data_none_witness :
    demoMd.close_prices.length < (MTFMAConfig.mk 10 20 (7/10) true).long_period ∧
    mtfmaEvaluate (MTFMAConfig.mk 10 20 (7/10) true) demoMd = none :=
  ⟨by decide, ma_insufficient_data_none _ _ (by decide)⟩

/-- Counterexample to claim C9: a Signal whose confidence 1/2 and price 100
satisfy the claimed bounds but whose symbol is empty still fails validation,
so construction does not succeed for every input satisfying the bounds. -/
theorem signal_empty_symbol_cex :
    Signal.make .BUY "" 100 (1/2) "test" [] =
      .error (.valueError "symbol required") ∧
    (0:ℚ) ≤ 1/2 ∧ (1/2:ℚ) ≤ 1 ∧ (0:ℚ) < 100 := by
  refine ⟨?_, by norm_num, by norm_num, by norm_num⟩
  rw [Signal.make, if_pos rfl]

/-- Claim C9 (amended): a Signal with confidence outside [0,1] or
non-positive price fails validation, and a Signal with non-empty symbol,
positive price and confidence within [0,1] is constructed; a Position with
negative size or non-positive entry or current price fails validation, and a
Position within those bounds is constructed (Position does not validate its
symbol). -/
theorem model_validation_bounds :
    (∀ (ty : SignalType) (sym src : String) (price conf : ℚ)
       (m : List (String × MetaVal)),
      (price ≤ 0 ∨ ¬(0 ≤ conf ∧ conf ≤ 1)) →
        ∃ msg, Signal.make ty sym price conf src m = .error (.valueError msg)) ∧
    (∀ (ty : SignalType) (sym src : String) (price conf : ℚ)
       (m : List (String × MetaVal)),
      sym ≠ "" → 0 < price → 0 ≤ conf → conf ≤ 1 →
        Signal.make ty sym price conf src m = .ok ⟨ty, sym, price, conf, src, m⟩) ∧
    (∀ (sym : String) (side : PositionSide) (size entry current : ℚ),
      (size < 0 ∨ entry ≤ 0 ∨ current ≤ 0) →
        ∃ msg, Position.make sym side size entry current =
          .error (.valueError msg)) ∧
    (∀ (sym : String) (side : PositionSide) (size entry current : ℚ),
      0 ≤ size → 0 < entry → 0 < current →
        Position.make sym side size entry current =
          .ok ⟨sym, side, size, entry, current⟩) := by
  refine ⟨?_, ?_, ?_, ?_⟩
  · intro ty sym src price conf m h
    unfold Signal.make
    by_cases hs : sym = ""
    · exact ⟨_, by rw [if_pos hs]⟩
    · rw [if_neg hs]
      rcases h with h | h
      · exact ⟨_, by rw [if_pos h]⟩
      · by_cases hp : price ≤ 0
        · exact ⟨_, by rw [if_pos hp]⟩
        · rw [if_neg hp]
          exact ⟨_, by rw [if_pos h]⟩
  · intro ty sym src price conf m hs hp h0 h1
    unfold Signal.make
    rw [if_neg hs, if_neg (not_le.mpr hp), if_neg (not_not_intro ⟨h0, h1⟩)]
  · intro sym side size entry current h
    unfold Position.make
    rcases h with h | h | h
    · exact ⟨_, by rw [if_pos h]⟩
    · by_cases h0 : size < 0
      · exact ⟨_, by rw [if_pos h0]⟩
      · rw [if_neg h0]
        exact ⟨_, by rw [if_pos h]⟩
    · by_cases h0 : size < 0
      · exact ⟨_, by rw [if_pos h0]⟩
      · rw [if_neg h0]
        by_cases h1 : entry ≤ 0
        · exact ⟨_, by rw [if_pos h1]⟩
        · rw [if_neg h1]
          exact ⟨_, by rw [if_pos h]⟩
  · intro sym side size entry current h0 h1 h2
    unfold Position.make
    rw [if_neg (not_lt.mpr h0), if_neg (not_le.mpr h1), if_neg (not_le.mpr h2)]

/-- Witness for C9's amended claim at concrete valid and invalid inputs. -/
theorem model_validation_bounds_witness :
    Signal.make .BUY "BTCUSDT" 100 (1/2) "test" [] =
      .ok ⟨.BUY, "BTCUSDT", 100, 1/2, "test", []⟩ ∧
    (∃ msg, Signal.make .BUY "BTCUSDT" 100 (3/2) "test" [] =
      .error (.valueError msg)) ∧
    (∃ msg, Position.make "BTCUSDT" .LONG (-1) 100 100 =
      .error (.valueError msg)) ∧
    Position.make "BTCUSDT" .LONG 1 100 97 =
      .ok ⟨"BTCUSDT", .LONG, 1, 100, 97⟩ := by
  refine ⟨?_, ?_, ?_, ?_⟩
  · exact model_validation_bounds.2.1 .BUY "BTCUSDT" "test" 100 (1/2) []
      (by decide) (by norm_num) (by norm_num) (by norm_num)
  · exact model_validation_bounds.1 .BUY "BTCUSDT" "test" 100 (3/2) []
      (Or.inr (by norm_num))
  · exact model_validation_bounds.2.2.1 "BTCUSDT" .LONG (-1) 100 100
      (Or.inl (by norm_num))
  · exact model_validation_bounds.2.2.2 "BTCUSDT" .LONG 1 100 97
      (by norm_num) (by norm_num) (by norm_num)

/-- Helper: the channel of the demo market data is (100, 90) regardless of
the current price (the channel reads only the high/low history). -/
theorem demo_channel_eval (c : ℚ) :
    calculatePriceChannel demoPcCfg { demoPcMd with current_price := c } =
      some (100, 90) := by
  norm_num [calculatePriceChannel, lastN, demoPcCfg, demoPcMd,
    List.replicate, List.max?, List.min?]

/-- Helper: with the lower breakout disabled, the price-channel condition
yields no signal unless the price strictly exceeds the upper threshold line
upper*(1+threshold). -/
theorem pcEvaluate_none_of_no_upper_breakout (cfg : PCConfig) (md : MarketData)
    (u l : ℚ) (hlow : cfg.lower_breakout = "none")
    (hch : calculatePriceChannel cfg md = some (u, l))
    (hnp : ¬(u * (1 + cfg.breakout_threshold) < md.current_price)) :
    pcEvaluate cfg md = none := by
  unfold pcEvaluate
  by_cases h1 : cfg.is_enabled
  case neg => simp [h1]
  by_cases h2 : validateMarketData md
  case neg => simp [h1, h2]
  by_cases h3 : md.high_prices.length < pcMinDataPoints cfg ∨
      md.low_prices.length < pcMinDataPoints cfg
  case pos => simp [h1, h2, h3]
  simp only [h1, h2, h3, Bool.not_true, Bool.false_eq_true, if_false, hch]
  unfold evaluateBreakout
  rw [if_neg (fun hand => hnp hand.2)]
  rw [if_neg (fun hand => hand.1 hlow)]

/-- Counterexample to claim C10: with the default 0.1 percent breakout
threshold, a current price exactly at the upper channel line (100 against
upper = 100) and a price marginally beyond it (100.05, below the 100.1
threshold price) both produce no signal, although the claim says a price at
or marginally past the line still fires. -/
theorem pc_breakout_at_line_cex :
    calculatePriceChannel demoPcCfg demoPcMd = some (100, 90) ∧
    demoPcMd.current_price = 100 ∧
    pcEvaluate demoPcCfg demoPcMd = none ∧
    pcEvaluate demoPcCfg { demoPcMd with current_price := 100 + 1/20 } = none := by
  have h1 : calculatePriceChannel demoPcCfg demoPcMd = some (100, 90) := by
    norm_num [calculatePriceChannel, lastN, demoPcCfg, demoPcMd,
      List.replicate, List.max?, List.min?]
  refine ⟨h1, rfl, ?_, ?_⟩
  · exact pcEvaluate_none_of_no_upper_breakout demoPcCfg demoPcMd 100 90 rfl h1
      (by norm_num [demoPcCfg, demoPcMd])
  · exact pcEvaluate_none_of_no_upper_breakout demoPcCfg
      { demoPcMd with current_price := 100 + 1/20 } 100 90 rfl
      (demo_channel_eval (100 + 1/20))
      (by norm_num [demoPcCfg, demoPcMd])

/-- Claim C10 (amended): a price-channel breakout fires only when the current
price is strictly beyond the channel line by more than the breakout_threshold
fraction of the line (price > upper*(1+threshold)); a price at or only
marginally past the line does not fire.  When an upper breakout fires, the
signal's confidence is min(1, max(3/10, min(breakout_pct/2, 8/10))), which is
monotone in how far the price sits beyond the line. -/
theorem pc_breakout_strict_threshold :
    (∀ (cfg : PCConfig) (md : MarketData) (u l : ℚ),
      cfg.lower_breakout = "none" →
      calculatePriceChannel cfg md = some (u, l) →
      ¬(u * (1 + cfg.breakout_threshold) < md.current_price) →
      pcEvaluate cfg md = none) ∧
    (∀ (cfg : PCConfig) (md : MarketData) (u l : ℚ),
      cfg.is_enabled = true →
      validateMarketData md = true →
      ¬(md.high_prices.length < pcMinDataPoints cfg ∨
        md.low_prices.length < pcMinDataPoints cfg) →
      calculatePriceChannel cfg md = some (u, l) →
      cfg.upper_breakout = "buy" →
      u * (1 + cfg.breakout_threshold) < md.current_price →
      cfg.confidence_threshold ≤ breakoutConfidence md.current_price u true →
      pcEvaluate cfg md =
        some { type := .BUY, symbol := md.symbol, price := md.current_price
             , confidence := breakoutConfidence md.current_price u true
             , source := "Price Channel 조건"
             , metadata := [("breakout_type", .s "upper"),
                            ("breakout_direction", .s "buy")] }) ∧
    (∀ (line p1 p2 : ℚ), 0 < line → p1 ≤ p2 →
      breakoutConfidence p1 line true ≤ breakoutConfidence p2 line true) := by
  refine ⟨?_, ?_, ?_⟩
  · intro cfg md u l hlow hch hnp
    exact pcEvaluate_none_of_no_upper_breakout cfg md u l hlow hch hnp
  · intro cfg md u l h1 h2 h3 hch hub hprice hconf
    unfold pcEvaluate
    simp only [h1, h2, h3, Bool.not_true, Bool.false_eq_true, if_false, hch]
    unfold evaluateBreakout
    rw [if_pos ⟨by rw [hub]; decide, hprice⟩]
    simp only [if_pos hconf, hub]
    rw [if_pos trivial]
  · intro line p1 p2 hline hp
    unfold breakoutConfidence
    rw [if_neg (ne_of_gt hline), if_neg (ne_of_gt hline)]
    simp only [if_pos trivial]
    have hb : (p1 - line) / line * 100 / 2 ≤ (p2 - line) / line * 100 / 2 := by
      have hstep : (p1 - line) / line ≤ (p2 - line) / line :=
        (div_le_div_iff_of_pos_right hline).mpr (by linarith)
      linarith
    exact min_le_min (le_refl 1)
      (max_le_max (le_refl (3/10)) (min_le_min hb (le_refl (8/10))))

/-- Witness for C10's amended claim: a price of 103 against the upper line
100 clears the 100.1 threshold price and fires at confidence 8/10. -/
theorem pc_breakout_strict_threshold_witness :
    demoPcCfg.is_enabled = true ∧
    validateMarketData { demoPcMd with current_price := 103 } = true ∧
    calculatePriceChannel demoPcCfg { demoPcMd with current_price := 103 } =
      some (100, 90) ∧
    (100 : ℚ) * (1 + demoPcCfg.breakout_threshold) < 103 ∧
    demoPcCfg.confidence_threshold ≤ breakoutConfidence 103 100 true ∧
    pcEvaluate demoPcCfg { demoPcMd with current_price := 103 } =
      some { type := .BUY, symbol := "BTCUSDT", price := 103
           , confidence := breakoutConfidence 103 100 true
           , source := "Price Channel 조건"
           , metadata := [("breakout_type", .s "upper"),
                          ("breakout_direction", .s "buy")] } := by
  have hv : validateMarketData { demoPcMd with current_price := 103 } = true := by
    norm_num [validateMarketData, demoPcMd, List.replicate]
  have hlen : ¬(({ demoPcMd with current_price := 103 } : MarketData).high_prices.length <
      pcMinDataPoints demoPcCfg ∨
      ({ demoPcMd with current_price := 103 } : MarketData).low_prices.length <
      pcMinDataPoints demoPcCfg) := by
    norm_num [pcMinDataPoints, demoPcCfg, demoPcMd, List.replicate]
  have hpr : (100 : ℚ) * (1 + demoPcCfg.breakout_threshold) < 103 := by
    norm_num [demoPcCfg]
  have hcf : demoPcCfg.confidence_threshold ≤ breakoutConfidence 103 100 true := by
    norm_num [demoPcCfg, breakoutConfidence]
  exact ⟨rfl, hv, demo_channel_eval 103, hpr, hcf,
    pc_breakout_strict_threshold.2.1 demoPcCfg
      { demoPcMd with current_price := 103 } 100 90 rfl hv hlen
      (demo_channel_eval 103) rfl hpr hcf⟩

end Crypto
